import Mathlib

/-!
# Shallow embedding of `tracing-layer-slack-discord`

This file embeds the event-filtering/formatting pipeline of the two layer
implementations (`src/core/src/layer.rs` and `src/src/layer.rs`) and the
delivery worker (`src/core/src/worker.rs`, `src/src/worker.rs`) as pure Lean
functions, and proves the behavioural properties claimed of them.

The filters module (`EventFilters`, the `process` impls, the regex engine) is
not part of the sources; those pieces are modelled from the spec as noted on
each definition. Everything else is translated directly from the Rust source.
-/

/-- Errors produced by the filtering pipeline (the crate's `FilterError` /
`MatchingError`). `ioError` stands for the `IoError(..)` variant produced when
a level string fails to parse; serialization errors cannot occur in the model
because the metadata map is kept as a plain association list. -/
inductive FilterError where
  | positiveFilterFailed
  | negativeFilterFailed
  | ioError
deriving DecidableEq, Repr

/-- Modelled from the spec: the filters module defining `EventFilters` is not
under `src/` (only its callers in `layer.rs` are). Per spec section 4.1 an
`EventFilters` value composes up to two optional matchers into one
accept/reject decision per candidate string, so it is represented here by that
observable decision function `process`. -/
structure EventFilters where
  process : String → Except FilterError Unit

/-- Modelled from the spec: a compiled regex pattern (the external regex
crate), represented by its match predicate on strings; patterns are
pre-validated at construction time, so matching itself never fails. -/
structure Regex where
  isMatch : String → Bool

/-- Modelled from the spec: `process` on an `Option<EventFilters>`; absence of
an `EventFilters` value for a role means that role imposes no constraint
(always passes). -/
def processOpt (f : Option EventFilters) (s : String) : Except FilterError Unit :=
  match f with
  | none => .ok ()
  | some f => f.process s

/-- Modelled from the spec: `process` for the field-exclusion filters
(`Option<Vec<Regex>>`); a candidate field key is rejected iff it matches any
pattern in the list, and an absent list imposes no constraint. -/
def processExclusion (fs : Option (List Regex)) (key : String) : Except FilterError Unit :=
  match fs with
  | none => .ok ()
  | some l => if l.any (fun r => r.isMatch key) then .error .positiveFilterFailed else .ok ()

deriving instance DecidableEq for Except

/-- `Result::is_ok`, specialised to the filter result type. -/
def isOkB : Except FilterError Unit → Bool
  | .ok _ => true
  | .error _ => false

/-- Minimal model of a `serde_json::Value` as stored by `JsonStorage`: the
formatter only ever discriminates on the `String` variant. -/
inductive JValue where
  | str (s : String)
  | num (n : Int)
  | bool (b : Bool)
  | null
deriving DecidableEq, Repr

/-- `tracing::Level` of an event, the five event severities. -/
inductive Level where
  | trace
  | debug
  | info
  | warn
  | error
deriving DecidableEq, Repr

/-- `tracing::Level::as_str`, the uppercase level names. -/
def Level.asStr : Level → String
  | .trace => "TRACE"
  | .debug => "DEBUG"
  | .info => "INFO"
  | .warn => "WARN"
  | .error => "ERROR"

/-- Index of a level in the standard severity ordering
Trace < Debug < Info < Warn < Error used by the spec. -/
def Level.idx : Level → Nat
  | .trace => 0
  | .debug => 1
  | .info => 2
  | .warn => 3
  | .error => 4

/-- `log::LevelFilter` (reached through `tracing::log`), ordered
Off < Error < Warn < Info < Debug < Trace: a larger value is a more verbose
filter. -/
inductive LevelFilter where
  | off
  | error
  | warn
  | info
  | debug
  | trace
deriving DecidableEq, Repr

/-- Numeric value of a `log::LevelFilter`, matching the crate's `usize`
representation used by its `PartialOrd`. -/
def LevelFilter.toNat : LevelFilter → Nat
  | .off => 0
  | .error => 1
  | .warn => 2
  | .info => 3
  | .debug => 4
  | .trace => 5

/-- The code point of a character with ASCII lowercase letters folded to
uppercase, the comparison key of `eq_ignore_ascii_case`. -/
def asciiUpperCode (c : Char) : Nat :=
  if 97 ≤ c.toNat ∧ c.toNat ≤ 122 then c.toNat - 32 else c.toNat

/-- `str::eq_ignore_ascii_case` on two strings. -/
def eqIgnoreAsciiCase (a b : String) : Bool :=
  a.data.map asciiUpperCode = b.data.map asciiUpperCode

/-- `log::LevelFilter::from_str`: ASCII-case-insensitive match against the
`LOG_LEVEL_NAMES`; unknown strings fail to parse. -/
def LevelFilter.fromStr (s : String) : Option LevelFilter :=
  if eqIgnoreAsciiCase s "OFF" then some .off
  else if eqIgnoreAsciiCase s "ERROR" then some .error
  else if eqIgnoreAsciiCase s "WARN" then some .warn
  else if eqIgnoreAsciiCase s "INFO" then some .info
  else if eqIgnoreAsciiCase s "DEBUG" then some .debug
  else if eqIgnoreAsciiCase s "TRACE" then some .trace
  else none

/-- The `log::LevelFilter` corresponding to a `tracing::Level`. -/
def levelFilterOf : Level → LevelFilter
  | .trace => .trace
  | .debug => .debug
  | .info => .info
  | .warn => .warn
  | .error => .error

/-- The level-filter stage of `core/src/layer.rs` (`on_event`, lines 229-239):
if a threshold string is configured, parse the event's level name and the
threshold with `LevelFilter::from_str` (parse failure becomes an `IoError`)
and reject with `PositiveFilterFailed` when the event's `LevelFilter` value is
numerically greater than the threshold's. -/
def levelCheck (level_filter : Option String) (eventLevel : Level) : Except FilterError Unit :=
  match level_filter with
  | none => .ok ()
  | some lf =>
    match LevelFilter.fromStr eventLevel.asStr with
    | none => .error .ioError
    | some messageLevel =>
      match LevelFilter.fromStr lf with
      | none => .error .ioError
      | some threshold =>
        if threshold.toNat < messageLevel.toNat then .error .positiveFilterFailed else .ok ()

/-- The reserved message-source keys of `core/src/layer.rs` (`KEYWORDS`). -/
def KEYWORDS : List String := ["message", "error"]

/-- The per-field loop shared by both `on_event` implementations: skip a field
whose key is one of `keywords` or whose key is rejected by the field-exclusion
filters; otherwise run `event_by_field_filters.process(key)?` (whose error
aborts the whole loop, via `?`) and emit the entry. The core layer instantiates
`keywords` with `KEYWORDS`, the Slack layer with `["message"]`. -/
def loopFields (keywords : List String) (event_by_field_filters : Option EventFilters)
    (field_exclusion_filters : Option (List Regex)) :
    List (String × JValue) → Except FilterError (List (String × JValue))
  | [] => .ok []
  | (key, value) :: rest =>
    if keywords.contains key then
      loopFields keywords event_by_field_filters field_exclusion_filters rest
    else if isOkB (processExclusion field_exclusion_filters key) = false then
      loopFields keywords event_by_field_filters field_exclusion_filters rest
    else
      match processOpt event_by_field_filters key with
      | .error e => .error e
      | .ok () =>
        match loopFields keywords event_by_field_filters field_exclusion_filters rest with
        | .error e => .error e
        | .ok tail => .ok ((key, value) :: tail)

/-- First string value stored under `key` in the event's visitor map
(`event_visitor.values().get(key)` restricted to `Value::String`). -/
def lookupStr (fields : List (String × JValue)) (key : String) : Option String :=
  match fields.lookup key with
  | some (.str s) => some s
  | _ => none

/-- Message selection of `core/src/layer.rs`: the `"message"` field if it is a
string, else the `"error"` field if it is a string, else `"No message"`. -/
def selectMessageCore (fields : List (String × JValue)) : String :=
  match lookupStr fields "message" with
  | some s => s
  | none =>
    match lookupStr fields "error" with
    | some s => s
    | none => "No message"

/-- Message selection of `src/layer.rs` (the Slack layer): the `"message"`
field if it is a string, else the event's target. -/
def selectMessageSlack (fields : List (String × JValue)) (target : String) : String :=
  match lookupStr fields "message" with
  | some s => s
  | none => target

/-- The filter configuration carried by the core `WebhookLayer`. -/
structure CoreLayerCfg where
  target_filters : EventFilters
  message_filters : Option EventFilters
  event_by_field_filters : Option EventFilters
  field_exclusion_filters : Option (List Regex)
  level_filter : Option String
  app_name : String

/-- The filter configuration carried by the `SlackLayer` of `src/layer.rs`
(no level filter). -/
structure SlackLayerCfg where
  target_filters : EventFilters
  message_filters : Option EventFilters
  event_by_field_filters : Option EventFilters
  field_exclusion_filters : Option (List Regex)

/-- One raw tracing event as seen by `on_event`: its static metadata plus the
recorded field values (in visitor iteration order). -/
structure CoreEvent where
  target : String
  level : Level
  fields : List (String × JValue)
  file : Option String
  line : Option Nat
deriving DecidableEq, Repr

/-- The ambient span, when one is active: its name and its stored fields. -/
structure SpanInfo where
  name : String
  fields : List (String × JValue)
deriving DecidableEq, Repr

/-- Fields of the optional ambient span (empty when there is none). -/
def spanFields : Option SpanInfo → List (String × JValue)
  | none => []
  | some s => s.fields

/-- Name of the optional ambient span (`""` when there is none), as in
`core/src/layer.rs` lines 266-269. -/
def spanName : Option SpanInfo → String
  | none => ""
  | some s => s.name

/-- The `WebhookMessageInputs` assembled by the core `on_event`; `metadata` is
kept as the ordered association list of serialized entries (event-derived
entries first, span entries appended after). -/
structure CorePayload where
  app_name : String
  message : String
  event_level : Level
  source_file : String
  source_line : Nat
  target : String
  span : String
  metadata : List (String × JValue)
deriving DecidableEq, Repr

/-- Stages of the formatting pipeline, used to record the order in which the
`format` closure consults them. -/
inductive Stage where
  | targetFilter
  | messageSelect
  | messageFilter
  | levelFilter
  | fieldLoop
  | spanMerge
deriving DecidableEq, Repr

/-- The stage order claimed by the spec for one event. -/
def claimedStageOrder : List Stage :=
  [.targetFilter, .messageSelect, .messageFilter, .levelFilter, .fieldLoop, .spanMerge]

/-- The `format` closure of `core/src/layer.rs::on_event` (lines 206-287),
instrumented with the list of pipeline stages reached, in order: target
filter, then message selection, then message filter, then level filter, then
the per-field loop, then the unconditional span merge. -/
def formatCoreT (cfg : CoreLayerCfg) (ev : CoreEvent) (current_span : Option SpanInfo) :
    Except FilterError CorePayload × List Stage :=
  match cfg.target_filters.process ev.target with
  | .error e => (.error e, [.targetFilter])
  | .ok () =>
    let message := selectMessageCore ev.fields
    match processOpt cfg.message_filters message with
    | .error e => (.error e, [.targetFilter, .messageSelect, .messageFilter])
    | .ok () =>
      match levelCheck cfg.level_filter ev.level with
      | .error e => (.error e, [.targetFilter, .messageSelect, .messageFilter, .levelFilter])
      | .ok () =>
        match loopFields KEYWORDS cfg.event_by_field_filters cfg.field_exclusion_filters ev.fields with
        | .error e =>
          (.error e, [.targetFilter, .messageSelect, .messageFilter, .levelFilter, .fieldLoop])
        | .ok pairs =>
          (.ok { app_name := cfg.app_name
                 message := message
                 event_level := ev.level
                 source_file := ev.file.getD "Unknown"
                 source_line := ev.line.getD 0
                 target := ev.target
                 span := spanName current_span
                 metadata := pairs ++ spanFields current_span },
           claimedStageOrder)

/-- The payload-or-rejection outcome of the core `format` closure. -/
def formatCore (cfg : CoreLayerCfg) (ev : CoreEvent) (current_span : Option SpanInfo) :
    Except FilterError CorePayload :=
  (formatCoreT cfg ev current_span).1

/-- `format_span_context` of `src/layer.rs`: a bracketed uppercased span-name
annotation (the event variant of the bunyan `Type`). -/
def format_span_context (name : String) : String :=
  "[" ++ name.toUpper ++ " - EVENT]"

/-- `Option<u32>` line number serialized into the buffer. -/
def jOfLine : Option Nat → JValue
  | none => .null
  | some n => .num n

/-- `Option<&str>` file name serialized into the buffer. -/
def jOfFile : Option String → JValue
  | none => .null
  | some s => .str s

/-- The `format` closure of `src/layer.rs::on_event` (the Slack layer, lines
180-236), instrumented like `formatCoreT`. Its stage order differs from the
core layer: the message is selected and message-filtered first, then the span
annotation is prepended and the `message` entry is written, and only then is
the target filter consulted; there is no level filter. On success it returns
the ordered entries of the serialized buffer. -/
def formatSlackT (cfg : SlackLayerCfg) (ev : CoreEvent) (current_span : Option SpanInfo) :
    Except FilterError (List (String × JValue)) × List Stage :=
  let message0 := selectMessageSlack ev.fields ev.target
  match processOpt cfg.message_filters message0 with
  | .error e => (.error e, [.messageSelect, .messageFilter])
  | .ok () =>
    let message :=
      match current_span with
      | some s => format_span_context s.name ++ " " ++ message0
      | none => message0
    match cfg.target_filters.process ev.target with
    | .error e => (.error e, [.messageSelect, .messageFilter, .targetFilter])
    | .ok () =>
      match loopFields ["message"] cfg.event_by_field_filters cfg.field_exclusion_filters
          ev.fields with
      | .error e => (.error e, [.messageSelect, .messageFilter, .targetFilter, .fieldLoop])
      | .ok pairs =>
        (.ok ([("message", .str message), ("target", .str ev.target),
               ("line", jOfLine ev.line), ("file", jOfFile ev.file)] ++
              pairs ++ spanFields current_span),
         [.messageSelect, .messageFilter, .targetFilter, .fieldLoop, .spanMerge])

/-- The payload-or-rejection outcome of the Slack `format` closure. -/
def formatSlack (cfg : SlackLayerCfg) (ev : CoreEvent) (current_span : Option SpanInfo) :
    Except FilterError (List (String × JValue)) :=
  (formatSlackT cfg ev current_span).1

/-- One HTTP send attempt as observed by the worker loop of
`core/src/worker.rs`: either `client.post(..).send().await` errors, or it
returns a response whose body read (`res.text().await`) succeeds or fails. -/
inductive AttemptResult where
  | sendErr
  | sendOk (bodyReadOk : Bool)
deriving DecidableEq, Repr

/-- How one payload's retry loop ends: the payload was delivered (successful
response, body read), the `MAX_RETRIES` attempt budget was exhausted, or the
worker task panicked (the `unwrap()` on a failed body read). -/
inductive SendOutcome where
  | delivered
  | exhausted
  | panicked
deriving DecidableEq, Repr

/-- Observable trace of one payload's retry loop: how many `send` calls were
issued, the backoff sleeps performed (in ms, in order), and the outcome. -/
structure SendTrace where
  attempts : Nat
  delays : List Nat
  outcome : SendOutcome
deriving DecidableEq, Repr

/-- `MAX_RETRIES` of `core/src/worker.rs`. -/
def MAX_RETRIES : Nat := 10

/-- The retry loop of `core/src/worker.rs` (lines 103-128), with `fuel`
standing for `MAX_RETRIES - retries`. Each iteration issues one send attempt;
a successful response (body read and all) breaks out; a failed body read hits
the `unwrap()` and panics the task; a send error falls through to the
exponential backoff sleep of `2^retries * 100` ms before the next iteration. -/
def retryLoop (attempt : Nat → AttemptResult) (retries : Nat) : Nat → SendTrace
  | 0 => ⟨0, [], .exhausted⟩
  | fuel + 1 =>
    match attempt retries with
    | .sendOk true => ⟨1, [], .delivered⟩
    | .sendOk false => ⟨1, [], .panicked⟩
    | .sendErr =>
      let rest := retryLoop attempt (retries + 1) fuel
      ⟨rest.attempts + 1, 2 ^ retries * 100 :: rest.delays, rest.outcome⟩

/-- Processing of one `WorkerMessage::Data` payload: the retry loop started at
`retries = 0` with the full `MAX_RETRIES` budget, where `attempt k` is the
result of the send issued when `retries = k` (i.e. the `k+1`-th attempt). -/
def sendPayloadLoop (attempt : Nat → AttemptResult) : SendTrace :=
  retryLoop attempt 0 MAX_RETRIES

/-- An `OutboundPayload` handed to the worker (destination and serialized
body). -/
structure WebhookPayload where
  url : String
  body : String
deriving DecidableEq, Repr

/-- `WorkerMessage` of `core/src/worker.rs`. -/
inductive WorkerMessage where
  | data (p : WebhookPayload)
  | shutdown
deriving DecidableEq, Repr

/-- Why the worker loop of `core/src/worker.rs` stopped: the channel closed
(`rx.recv()` returned `None`), a `Shutdown` message was dequeued, or the task
panicked inside a body read. -/
inductive WorkerExit where
  | channelClosed
  | shutdownReceived
  | panicked
deriving DecidableEq, Repr

/-- The consume loop of `core/src/worker.rs::worker` (lines 94-135) run over
the queue contents in arrival order. `attemptOf p k` is the result of the
send issued for payload `p` at `retries = k`. Returns the payloads whose
delivery was attempted (each entered the retry loop and was posted at least
once), in order, together with how the loop ended. -/
def workerRun (attemptOf : WebhookPayload → Nat → AttemptResult) :
    List WorkerMessage → List WebhookPayload × WorkerExit
  | [] => ([], .channelClosed)
  | .shutdown :: _ => ([], .shutdownReceived)
  | .data p :: rest =>
    if (sendPayloadLoop (attemptOf p)).outcome = .panicked then
      ([p], .panicked)
    else
      let r := workerRun attemptOf rest
      (p :: r.1, r.2)

/-- The shared lifecycle state of `BackgroundWorker`: whether the channel's
receiver side is still reachable (so `sender.send` succeeds) and the
`Option<JoinHandle>` behind the handle mutex. -/
structure BackgroundWorkerState where
  channelOpen : Bool
  handle : Option Unit
deriving DecidableEq, Repr

/-- What `BackgroundWorker::shutdown` reports about sending the `Shutdown`
message. -/
inductive ShutdownLog where
  | sentOk
  | sendFailedAlreadyClosed
deriving DecidableEq, Repr

/-- What `BackgroundWorker::shutdown` does with the stored join handle. -/
inductive JoinLog where
  | awaitedHandle
  | handleAlreadyDropped
deriving DecidableEq, Repr

/-- `BackgroundWorker::shutdown` of `core/src/worker.rs` (lines 63-83): send
`Shutdown` (a failure is only reported, never an early return), then lock the
handle mutex and `take()` the handle; award the taken handle or report that it
was already dropped. No path panics. -/
def shutdownCall (s : BackgroundWorkerState) :
    BackgroundWorkerState × ShutdownLog × JoinLog :=
  let sendLog := if s.channelOpen then ShutdownLog.sentOk else .sendFailedAlreadyClosed
  match s.handle with
  | some _ => (⟨s.channelOpen, none⟩, sendLog, .awaitedHandle)
  | none => (s, sendLog, .handleAlreadyDropped)

/-- Concrete attempt sequence failing on attempts 1-9 and succeeding on
attempt 10. -/
def attC3 : Nat → AttemptResult := fun k => if k < 9 then .sendErr else .sendOk true

/-- Attempt sequence in which every send attempt fails at transport level. -/
def attC7 : WebhookPayload → Nat → AttemptResult := fun _ _ => .sendErr

/-- Attempt sequence in which every send succeeds but every body read fails. -/
def attBodyFail : WebhookPayload → Nat → AttemptResult := fun _ _ => .sendOk false

/-- Attempt sequence in which every send succeeds outright. -/
def attOk : WebhookPayload → Nat → AttemptResult := fun _ _ => .sendOk true

/-- Sample payloads for concrete worker runs. -/
def pA : WebhookPayload := ⟨"https://hooks.example/a", "bodyA"⟩

def pB : WebhookPayload := ⟨"https://hooks.example/b", "bodyB"⟩

def pC : WebhookPayload := ⟨"https://hooks.example/c", "bodyC"⟩

def pD : WebhookPayload := ⟨"https://hooks.example/d", "bodyD"⟩

/-- Worker state with a live channel and a stored join handle, as left by
`start()`. -/
def sC9 : BackgroundWorkerState := ⟨true, some ()⟩

/-- Worker state whose channel send fails but whose handle is still stored. -/
def tC9 : BackgroundWorkerState := ⟨false, some ()⟩

/-- The backoff delays produced by `n` consecutive failed attempts starting at
`retries = r`: `2^r * 100, 2^(r+1) * 100, …` ms. -/
def backoffDelays (r : Nat) : Nat → List Nat
  | 0 => []
  | n + 1 => 2 ^ r * 100 :: backoffDelays (r + 1) n

/-- An `EventFilters` accepting every candidate. -/
def acceptAllEF : EventFilters := ⟨fun _ => .ok ()⟩

/-- An `EventFilters` rejecting exactly the candidate `"b"`. -/
def rejectKeyB : EventFilters := ⟨fun s => if s = "b" then .error .positiveFilterFailed else .ok ()⟩

/-- An `EventFilters` rejecting exactly the candidate `"secret"`. -/
def rejectSecret : EventFilters :=
  ⟨fun s => if s = "secret" then .error .positiveFilterFailed else .ok ()⟩

/-- Core configuration whose field-key filter rejects the key `"b"` and whose
other stages accept everything. -/
def cfgC1 : CoreLayerCfg := ⟨acceptAllEF, none, some rejectKeyB, none, none, "app"⟩

/-- An event carrying two fields, `"a"` and `"b"`. -/
def evC1 : CoreEvent := ⟨"svc.auth", .info, [("a", .str "1"), ("b", .str "2")], none, none⟩

/-- Core configuration whose field-key filter rejects the key `"secret"`. -/
def cfgC1w : CoreLayerCfg := ⟨acceptAllEF, none, some rejectSecret, none, none, "w"⟩

/-- An event carrying a `"user"` field and a `"secret"` field. -/
def evC1w : CoreEvent :=
  ⟨"svc.pay", .warn, [("user", .str "u"), ("secret", .str "x")], some "f.rs", some 7⟩

/-- Slack configuration with every stage accepting. -/
def slackCfgX : SlackLayerCfg := ⟨acceptAllEF, none, none, none⟩

/-- A plain event with no fields. -/
def evC2 : CoreEvent := ⟨"app.mod", .info, [], none, none⟩

/-- Core configuration with every stage accepting. -/
def cfgC2w : CoreLayerCfg := ⟨acceptAllEF, none, none, none, none, "app"⟩

/-- An event with one non-reserved field. -/
def evC2w : CoreEvent := ⟨"svc.auth", .info, [("user", .str "a")], none, none⟩

/-- An ambient span carrying one field. -/
def spC2w : Option SpanInfo := some ⟨"req", [("rid", .num 1)]⟩

/-- A pattern matching exactly the key `"user"`. -/
def rxUser : Regex := ⟨fun s => s = "user"⟩

/-- The payload the core formatter produces for `cfgC2w`, `evC2w`, `spC2w`. -/
def pC2w : CorePayload :=
  ⟨"app", "No message", .info, "Unknown", 0, "svc.auth", "req",
   [("user", .str "a"), ("rid", .num 1)]⟩

/-- Core configuration with no filters configured at all beyond an
all-accepting target filter. -/
def cfgC10 : CoreLayerCfg := ⟨acceptAllEF, none, none, none, none, "app"⟩

/-- An event whose fields include the reserved keys `"message"` and
`"error"`. -/
def evC10 : CoreEvent :=
  ⟨"svc", .error, [("message", .str "m"), ("error", .str "e"), ("user", .str "u")], none, none⟩

/-- An ambient span carrying one field. -/
def spC10 : Option SpanInfo := some ⟨"s", [("sk", .str "sv")]⟩

/-- The payload the core formatter produces for `cfgC10`, `evC10`, `spC10`. -/
def pC10 : CorePayload :=
  ⟨"app", "m", .error, "Unknown", 0, "svc", "s", [("user", .str "u"), ("sk", .str "sv")]⟩

theorem retryLoop_allErr (attempt : Nat → AttemptResult) :
    ∀ fuel r : Nat, (∀ k, k < fuel → attempt (r + k) = .sendErr) →
      retryLoop attempt r fuel = ⟨fuel, backoffDelays r fuel, .exhausted⟩ := by
  intro fuel
  induction fuel with
  | zero => intro r _; rfl
  | succ n ih =>
    intro r h
    have h0 : attempt r = .sendErr := by simpa using h 0 n.succ_pos
    have hrest := ih (r + 1) (fun k hk => by
      have hx := h (1 + k) (by omega)
      rw [show r + 1 + k = r + (1 + k) from by omega]
      exact hx)
    simp [retryLoop, h0, hrest, backoffDelays]

theorem retryLoop_errThenOk (attempt : Nat → AttemptResult) :
    ∀ n fuel r : Nat, n < fuel →
      (∀ k, k < n → attempt (r + k) = .sendErr) → attempt (r + n) = .sendOk true →
      retryLoop attempt r fuel = ⟨n + 1, backoffDelays r n, .delivered⟩ := by
  intro n
  induction n with
  | zero =>
    intro fuel r hlt _ hok
    cases fuel with
    | zero => omega
    | succ m =>
      have hok' : attempt r = .sendOk true := by simpa using hok
      simp [retryLoop, hok', backoffDelays]
  | succ n ih =>
    intro fuel r hlt hk hok
    cases fuel with
    | zero => omega
    | succ m =>
      have h0 : attempt r = .sendErr := by simpa using hk 0 n.succ_pos
      have hrest := ih m (r + 1) (by omega)
        (fun k hklt => by
          rw [show r + 1 + k = r + (k + 1) from by omega]
          exact hk (k + 1) (by omega))
        (by
          rw [show r + 1 + n = r + (n + 1) from by omega]
          exact hok)
      simp [retryLoop, h0, hrest, backoffDelays]

/-- One-step unfolding of the retry loop when the body read of the current
attempt fails: the `unwrap()` panics at once, with no backoff and no further
attempt. -/
theorem retryLoop_panic (attempt : Nat → AttemptResult) (r fuel : Nat)
    (h : attempt r = .sendOk false) :
    retryLoop attempt r (fuel + 1) = ⟨1, [], .panicked⟩ := by
  simp [retryLoop, h]

/-- C3: a payload whose sends fail on attempts 1 through 9 and succeed on
attempt 10 causes exactly 10 send attempts and exactly 9 backoff delays of
100·2^(k-1) ms before attempt k+1, and the success ends the loop with no
further delay or attempt. -/
theorem c3_retry_backoff (attempt : Nat → AttemptResult)
    (hfail : ∀ k, k < 9 → attempt k = .sendErr) (hok : attempt 9 = .sendOk true) :
    sendPayloadLoop attempt =
      ⟨10, [100, 200, 400, 800, 1600, 3200, 6400, 12800, 25600], .delivered⟩ := by
  have h := retryLoop_errThenOk attempt 9 10 0 (by omega)
    (fun k hk => by simpa using hfail k hk) (by simpa using hok)
  calc sendPayloadLoop attempt = retryLoop attempt 0 10 := rfl
    _ = ⟨10, backoffDelays 0 9, .delivered⟩ := by simpa using h
    _ = ⟨10, [100, 200, 400, 800, 1600, 3200, 6400, 12800, 25600], .delivered⟩ := by decide

/-- C3 witness: the schedule evaluated on a concrete attempt sequence. -/
theorem c3_witness :
    sendPayloadLoop attC3 =
      ⟨10, [100, 200, 400, 800, 1600, 3200, 6400, 12800, 25600], .delivered⟩ :=
  c3_retry_backoff attC3 (fun k hk => by simp [attC3, hk]) (by simp [attC3])

/-- C7: when all 10 attempts for a payload fail, the retry loop ends in
exhaustion and the worker abandons the payload and goes on to process the rest
of the queue exactly as it would have without that payload. -/
theorem c7_exhaustion_continues (attemptOf : WebhookPayload → Nat → AttemptResult)
    (p : WebhookPayload) (rest : List WorkerMessage)
    (h : ∀ k, k < 10 → attemptOf p k = .sendErr) :
    (sendPayloadLoop (attemptOf p)).outcome = .exhausted ∧
      workerRun attemptOf (.data p :: rest) =
        (p :: (workerRun attemptOf rest).1, (workerRun attemptOf rest).2) := by
  have hloop : sendPayloadLoop (attemptOf p) = ⟨10, backoffDelays 0 10, .exhausted⟩ := by
    have hx := retryLoop_allErr (attemptOf p) 10 0 (fun k hk => by simpa using h k hk)
    simpa [sendPayloadLoop, MAX_RETRIES] using hx
  refine ⟨by rw [hloop], ?_⟩
  simp [workerRun, hloop]

/-- C7 witness: a concrete always-failing payload followed by another queued
message. -/
theorem c7_witness :
    (sendPayloadLoop (attC7 pA)).outcome = .exhausted ∧
      workerRun attC7 [.data pA, .data pB] =
        (pA :: (workerRun attC7 [.data pB]).1, (workerRun attC7 [.data pB]).2) :=
  c7_exhaustion_continues attC7 pA [.data pB] (fun _ _ => rfl)

/-- C5 counterexample: a send whose HTTP request succeeds on the first attempt
but whose body read fails. The claim predicts the failure counts as one more
retry (a 100 ms backoff, a second attempt) and that the worker does not crash;
the code instead hits `res.text().await.unwrap()` and panics: one attempt, no
backoff delay, and the worker dies without processing the next queued
message. -/
theorem c5_counterexample :
    sendPayloadLoop (attBodyFail pC) = ⟨1, [], .panicked⟩ ∧
      workerRun attBodyFail [.data pC, .data pD] = ([pC], .panicked) ∧
      pD ∉ (workerRun attBodyFail [.data pC, .data pD]).1 := by
  refine ⟨rfl, rfl, by decide⟩

/-- C5 amended: a response-body read failure panics the worker task via
`unwrap()`: that payload's loop ends at that attempt with no backoff and no
retry, and the worker processes nothing further. -/
theorem c5_body_read_panics (attemptOf : WebhookPayload → Nat → AttemptResult)
    (p : WebhookPayload) (rest : List WorkerMessage)
    (h : attemptOf p 0 = .sendOk false) :
    sendPayloadLoop (attemptOf p) = ⟨1, [], .panicked⟩ ∧
      workerRun attemptOf (.data p :: rest) = ([p], .panicked) := by
  have hloop : sendPayloadLoop (attemptOf p) = ⟨1, [], .panicked⟩ := by
    have e : sendPayloadLoop (attemptOf p) = retryLoop (attemptOf p) 0 (9 + 1) := rfl
    rw [e, retryLoop_panic (attemptOf p) 0 9 h]
  exact ⟨hloop, by simp [workerRun, hloop]⟩

/-- C5 witness for the amended claim, at a concrete payload and queue. -/
theorem c5_witness :
    sendPayloadLoop (attBodyFail pA) = ⟨1, [], .panicked⟩ ∧
      workerRun attBodyFail [.data pA, .shutdown] = ([pA], .panicked) :=
  c5_body_read_panics attBodyFail pA [.shutdown] rfl

/-- C6: any payload the worker attempts to send out of a queue of the shape
`pre ++ Shutdown :: post` was enqueued as a `Data` message before the
`Shutdown`; nothing enqueued after the shutdown signal is ever sent. -/
theorem c6_shutdown_drops_rest (attemptOf : WebhookPayload → Nat → AttemptResult)
    (pre post : List WorkerMessage) (p : WebhookPayload)
    (h : p ∈ (workerRun attemptOf (pre ++ .shutdown :: post)).1) :
    WorkerMessage.data p ∈ pre := by
  induction pre with
  | nil => simp [workerRun] at h
  | cons m pre ih =>
    cases m with
    | shutdown => simp [workerRun] at h
    | data q =>
      by_cases hp : (sendPayloadLoop (attemptOf q)).outcome = .panicked
      · simp [workerRun, hp] at h
        subst h
        exact List.mem_cons_self _ _
      · simp [workerRun, hp] at h
        rcases h with rfl | h
        · exact List.mem_cons_self _ _
        · exact List.mem_cons_of_mem _ (ih h)

/-- C6 witness: with one `Data` before the shutdown and one after, the payload
the worker sent is the one enqueued before. -/
theorem c6_witness : WorkerMessage.data pA ∈ [WorkerMessage.data pA] :=
  c6_shutdown_drops_rest attOk [.data pA] [.data pB] pA (by decide)

/-- C9: double shutdown. A first `shutdown` call on a state holding a join
handle awaits it and leaves the handle slot empty; a second call reports the
handle as already dropped (a no-op, no panic). Independently, when the
`Shutdown` send fails because the channel is closed, the call still proceeds
to take and await the handle exactly as if the send had succeeded. -/
theorem c9_double_shutdown (s : BackgroundWorkerState) (h : s.handle = some ()) :
    ((shutdownCall s).2.2 = .awaitedHandle ∧ (shutdownCall s).1.handle = none ∧
      (shutdownCall (shutdownCall s).1).2.2 = .handleAlreadyDropped) ∧
    ∀ t : BackgroundWorkerState, t.channelOpen = false →
      (shutdownCall t).2.1 = .sendFailedAlreadyClosed ∧
      (shutdownCall t).2.2 =
        (if t.handle.isSome then JoinLog.awaitedHandle else .handleAlreadyDropped) := by
  constructor
  · simp [shutdownCall, h]
  · intro t ht
    cases th : t.handle <;> simp [shutdownCall, ht, th]

/-- C9 witness: both parts instantiated at concrete worker states. -/
theorem c9_witness :
    ((shutdownCall sC9).2.2 = .awaitedHandle ∧ (shutdownCall sC9).1.handle = none ∧
      (shutdownCall (shutdownCall sC9).1).2.2 = .handleAlreadyDropped) ∧
    ((shutdownCall tC9).2.1 = .sendFailedAlreadyClosed ∧
      (shutdownCall tC9).2.2 =
        (if tC9.handle.isSome then JoinLog.awaitedHandle else .handleAlreadyDropped)) :=
  ⟨(c9_double_shutdown sC9 rfl).1, (c9_double_shutdown sC9 rfl).2 tC9 rfl⟩


/-- The event-level side of the level check always parses: `Level::as_str`
names are in the `LevelFilter` name table. -/
theorem fromStr_asStr (l : Level) : LevelFilter.fromStr l.asStr = some (levelFilterOf l) := by
  cases l <;> decide

/-- C4: with a threshold string parsing to the `LevelFilter` of level `thr`,
an event at level `lvl` is dropped by the level stage iff `lvl` is strictly
below `thr` in the ordering Trace < Debug < Info < Warn < Error; in
particular an event at exactly the threshold level is kept. -/
theorem c4_level_threshold (s : String) (thr lvl : Level)
    (h : LevelFilter.fromStr s = some (levelFilterOf thr)) :
    (levelCheck (some s) lvl = .error .positiveFilterFailed ↔ lvl.idx < thr.idx) ∧
      (lvl = thr → levelCheck (some s) lvl = .ok ()) := by
  constructor
  · simp only [levelCheck, fromStr_asStr, h]
    cases thr <;> cases lvl <;> decide
  · rintro rfl
    simp only [levelCheck, fromStr_asStr, h]
    cases lvl <;> decide

/-- C4 witness: threshold `"info"`, event at `DEBUG` is dropped; the iff
evaluated at a concrete threshold and level. -/
theorem c4_witness :
    levelCheck (some "info") Level.debug = .error .positiveFilterFailed ↔
      Level.debug.idx < Level.info.idx :=
  (c4_level_threshold "info" Level.info Level.debug (by decide)).1

/-- If some field of the list survives the keyword and field-exclusion skips
but is rejected by the field-key filters, the whole per-field loop aborts with
an error (the `?` inside the `for` body). -/
theorem loopFields_error_of_mem (kws : List String) (ebf : Option EventFilters)
    (excl : Option (List Regex)) (k : String) (v : JValue) :
    ∀ fields : List (String × JValue), (k, v) ∈ fields →
      kws.contains k = false → isOkB (processExclusion excl k) = true →
      (∃ e, processOpt ebf k = .error e) →
      ∃ e, loopFields kws ebf excl fields = .error e := by
  intro fields
  induction fields with
  | nil => intro h; simp at h
  | cons kv rest ih =>
    intro hmem hkw hex hrej
    have hkw' : k ∉ kws := by simpa using hkw
    rcases List.mem_cons.mp hmem with heq | hmem'
    · subst heq
      obtain ⟨e, he⟩ := hrej
      exact ⟨e, by simp [loopFields, hkw', hex, he]⟩
    · obtain ⟨e', he'⟩ := ih hmem' hkw hex hrej
      rcases kv with ⟨k0, v0⟩
      cases h1 : kws.contains k0 with
      | true =>
        have h1' : k0 ∈ kws := by simpa using h1
        exact ⟨e', by simp [loopFields, h1', he']⟩
      | false =>
        have h1' : k0 ∉ kws := by simpa using h1
        cases h2 : isOkB (processExclusion excl k0) with
        | false => exact ⟨e', by simp [loopFields, h1', h2, he']⟩
        | true =>
          cases h3 : processOpt ebf k0 with
          | error e0 => exact ⟨e0, by simp [loopFields, h1', h2, h3]⟩
          | ok u =>
            cases u
            exact ⟨e', by simp [loopFields, h1', h2, h3, he']⟩

/-- C1 amended: when the field-key filters (`event_by_field_filters`) reject
the key of any event field that reaches the loop body (not a reserved keyword,
not already removed by field exclusion), the whole event is dropped: the
`format` closure returns an error and no payload is emitted. -/
theorem c1_field_key_rejection_drops_event (cfg : CoreLayerCfg) (ev : CoreEvent)
    (sp : Option SpanInfo) (k : String) (v : JValue)
    (hmem : (k, v) ∈ ev.fields) (hkw : KEYWORDS.contains k = false)
    (hex : isOkB (processExclusion cfg.field_exclusion_filters k) = true)
    (hrej : ∃ e, processOpt cfg.event_by_field_filters k = .error e) :
    ∃ e, formatCore cfg ev sp = .error e := by
  cases h1 : cfg.target_filters.process ev.target with
  | error e => exact ⟨e, by simp [formatCore, formatCoreT, h1]⟩
  | ok u =>
    cases u
    cases h2 : processOpt cfg.message_filters (selectMessageCore ev.fields) with
    | error e => exact ⟨e, by simp [formatCore, formatCoreT, h1, h2]⟩
    | ok u =>
      cases u
      cases h3 : levelCheck cfg.level_filter ev.level with
      | error e => exact ⟨e, by simp [formatCore, formatCoreT, h1, h2, h3]⟩
      | ok u =>
        cases u
        obtain ⟨e, he⟩ := loopFields_error_of_mem KEYWORDS cfg.event_by_field_filters
          cfg.field_exclusion_filters k v ev.fields hmem hkw hex hrej
        exact ⟨e, by simp [formatCore, formatCoreT, h1, h2, h3, he]⟩

/-- C1 counterexample: an event with fields `"a"` and `"b"` and a field-key
filter rejecting `"b"`. The claim predicts a payload that keeps field `"a"`
and drops only `"b"`; the code emits no payload at all — the `format` closure
returns the field-key filter's error for the whole event. -/
theorem c1_counterexample :
    formatCore cfgC1 evC1 none = .error .positiveFilterFailed := rfl

/-- C1 witness for the amended claim, at a concrete configuration rejecting
the `"secret"` field key of a two-field event. -/
theorem c1_witness : ∃ e, formatCore cfgC1w evC1w none = .error e :=
  c1_field_key_rejection_drops_event cfgC1w evC1w none "secret" (.str "x")
    (by decide) (by decide) rfl ⟨.positiveFilterFailed, rfl⟩

/-- C8: with the field-key filter role absent (no constraint) and a configured
list of exclusion patterns, the core per-field loop keeps exactly the
non-reserved fields whose key matches no exclusion pattern, with their values
untouched, and always succeeds — an exclusion match removes that field only
and never drops the whole event. -/
theorem c8_field_exclusion (patterns : List Regex) (fields : List (String × JValue)) :
    loopFields KEYWORDS none (some patterns) fields =
      .ok (fields.filter
        (fun kv => !KEYWORDS.contains kv.1 && !patterns.any (fun r => r.isMatch kv.1))) := by
  induction fields with
  | nil => rfl
  | cons kv rest ih =>
    rcases kv with ⟨k, v⟩
    cases hk : KEYWORDS.contains k with
    | true =>
      have hk' : k ∈ KEYWORDS := by simpa using hk
      simp [loopFields, hk', List.filter_cons, ih]
    | false =>
      have hk' : k ∉ KEYWORDS := by simpa using hk
      cases hm : patterns.any (fun r => r.isMatch k) with
      | true =>
        have hm' : ∃ r ∈ patterns, r.isMatch k = true := by simpa using hm
        simp [loopFields, hk', hm, hm', processExclusion, isOkB, List.filter_cons, ih]
      | false =>
        have hm' : ∀ r ∈ patterns, r.isMatch k = false := by simpa using hm
        simp [loopFields, hk', hm, hm', processExclusion, isOkB, processOpt,
          List.filter_cons, ih]

/-- Entries emitted by the core per-field loop never carry a reserved key:
the `KEYWORDS` filter removes `"message"` and `"error"` before any other
filter is consulted. -/
theorem loopFields_no_reserved (ebf : Option EventFilters) (excl : Option (List Regex)) :
    ∀ (fields pairs : List (String × JValue)),
      loopFields KEYWORDS ebf excl fields = .ok pairs →
      ∀ kv ∈ pairs, kv.1 ≠ "message" ∧ kv.1 ≠ "error" := by
  intro fields
  induction fields with
  | nil =>
    intro pairs h kv hkv
    simp [loopFields] at h
    subst h
    simp at hkv
  | cons hd rest ih =>
    rcases hd with ⟨k, v⟩
    intro pairs h kv hkv
    cases hcon : KEYWORDS.contains k with
    | true =>
      rw [loopFields, if_pos hcon] at h
      exact ih pairs h kv hkv
    | false =>
      rw [loopFields, if_neg (by simpa using hcon)] at h
      cases hex : isOkB (processExclusion excl k) with
      | false =>
        rw [if_pos hex] at h
        exact ih pairs h kv hkv
      | true =>
        rw [if_neg (by simp [hex])] at h
        cases hpf : processOpt ebf k with
        | error e => rw [hpf] at h; cases h
        | ok u =>
          cases u
          rw [hpf] at h
          cases hrest : loopFields KEYWORDS ebf excl rest with
          | error e => rw [hrest] at h; cases h
          | ok tail =>
            rw [hrest] at h
            have h' : (k, v) :: tail = pairs := by
              injection h
            subst h'
            rcases List.mem_cons.mp hkv with rfl | htail
            · constructor
              · intro hEq
                have hk2 : k = "message" := hEq
                subst hk2
                exact absurd hcon (by decide)
              · intro hEq
                have hk2 : k = "error" := hEq
                subst hk2
                exact absurd hcon (by decide)
            · exact ih tail hrest kv htail

/-- C10: in the core layer, any entry of a produced payload's metadata that
carries a reserved message-source key (`"message"` or `"error"`) can only
have come from the ambient span's fields; the event's own fields named
`"message"` and `"error"` are excluded from the metadata under every filter
configuration. -/
theorem c10_reserved_keys (cfg : CoreLayerCfg) (ev : CoreEvent) (sp : Option SpanInfo)
    (p : CorePayload) (h : formatCore cfg ev sp = .ok p) :
    ∀ kv ∈ p.metadata, (kv.1 ≠ "message" ∧ kv.1 ≠ "error") ∨ kv ∈ spanFields sp := by
  cases h1 : cfg.target_filters.process ev.target with
  | error e => simp [formatCore, formatCoreT, h1] at h
  | ok u =>
    cases u
    cases h2 : processOpt cfg.message_filters (selectMessageCore ev.fields) with
    | error e => simp [formatCore, formatCoreT, h1, h2] at h
    | ok u =>
      cases u
      cases h3 : levelCheck cfg.level_filter ev.level with
      | error e => simp [formatCore, formatCoreT, h1, h2, h3] at h
      | ok u =>
        cases u
        cases h4 : loopFields KEYWORDS cfg.event_by_field_filters
            cfg.field_exclusion_filters ev.fields with
        | error e => simp [formatCore, formatCoreT, h1, h2, h3, h4] at h
        | ok pairs =>
          have hfc : formatCore cfg ev sp =
              .ok { app_name := cfg.app_name
                    message := selectMessageCore ev.fields
                    event_level := ev.level
                    source_file := ev.file.getD "Unknown"
                    source_line := ev.line.getD 0
                    target := ev.target
                    span := spanName sp
                    metadata := pairs ++ spanFields sp } := by
            simp [formatCore, formatCoreT, h1, h2, h3, h4]
          rw [hfc] at h
          have hp : _ = p := Except.ok.inj h
          subst hp
          intro kv hkv
          rcases List.mem_append.mp hkv with hev | hsp
          · exact Or.inl (loopFields_no_reserved cfg.event_by_field_filters
              cfg.field_exclusion_filters ev.fields pairs h4 kv hev)
          · exact Or.inr hsp

/-- C10 witness: a concrete event carrying `"message"`, `"error"` and `"user"`
fields, applied to the kept entry `("user", "u")` of the resulting payload. -/
theorem c10_witness :
    (("user", JValue.str "u").1 ≠ "message" ∧ ("user", JValue.str "u").1 ≠ "error") ∨
      ("user", JValue.str "u") ∈ spanFields spC10 :=
  c10_reserved_keys cfgC10 evC10 spC10 pC10 rfl ("user", JValue.str "u") (by decide)

/-- C2 amended, core part: (1) the stages the core `format` closure reaches
always follow the claimed order — the recorded stage trace extends to
target filter → message selection → message filter → level filter → per-field
loop → span merge; (2) in the per-field loop, field exclusion is applied
before the field-key filter: a field whose key the exclusion filters reject is
skipped outright, with the same result as if it were absent (so the field-key
filter can never abort the event on it); (3) the ambient span's fields are
merged into every produced payload unconditionally and unfiltered, appended
after the event-derived entries. -/
theorem c2_core_stage_order (cfg : CoreLayerCfg) (ev : CoreEvent) (sp : Option SpanInfo) :
    (∃ t, (formatCoreT cfg ev sp).2 ++ t = claimedStageOrder) ∧
    (∀ (kws : List String) (ebf : Option EventFilters) (excl : Option (List Regex))
        (k : String) (v : JValue) (rest : List (String × JValue)),
      isOkB (processExclusion excl k) = false →
      loopFields kws ebf excl ((k, v) :: rest) = loopFields kws ebf excl rest) ∧
    (∀ p, formatCore cfg ev sp = .ok p →
      ∃ eventPart, p.metadata = eventPart ++ spanFields sp) := by
  refine ⟨?_, ?_, ?_⟩
  · cases h1 : cfg.target_filters.process ev.target with
    | error e =>
      exact ⟨[.messageSelect, .messageFilter, .levelFilter, .fieldLoop, .spanMerge],
        by simp [formatCoreT, h1, claimedStageOrder]⟩
    | ok u =>
      cases u
      cases h2 : processOpt cfg.message_filters (selectMessageCore ev.fields) with
      | error e =>
        exact ⟨[.levelFilter, .fieldLoop, .spanMerge],
          by simp [formatCoreT, h1, h2, claimedStageOrder]⟩
      | ok u =>
        cases u
        cases h3 : levelCheck cfg.level_filter ev.level with
        | error e =>
          exact ⟨[.fieldLoop, .spanMerge], by simp [formatCoreT, h1, h2, h3, claimedStageOrder]⟩
        | ok u =>
          cases u
          cases h4 : loopFields KEYWORDS cfg.event_by_field_filters
              cfg.field_exclusion_filters ev.fields with
          | error e =>
            exact ⟨[.spanMerge], by simp [formatCoreT, h1, h2, h3, h4, claimedStageOrder]⟩
          | ok pairs =>
            exact ⟨[], by simp [formatCoreT, h1, h2, h3, h4]⟩
  · intro kws ebf excl k v rest hexcl
    cases hk : kws.contains k with
    | true => rw [loopFields, if_pos hk]
    | false => rw [loopFields, if_neg (by simpa using hk), if_pos hexcl]
  · intro p hp
    cases h1 : cfg.target_filters.process ev.target with
    | error e => simp [formatCore, formatCoreT, h1] at hp
    | ok u =>
      cases u
      cases h2 : processOpt cfg.message_filters (selectMessageCore ev.fields) with
      | error e => simp [formatCore, formatCoreT, h1, h2] at hp
      | ok u =>
        cases u
        cases h3 : levelCheck cfg.level_filter ev.level with
        | error e => simp [formatCore, formatCoreT, h1, h2, h3] at hp
        | ok u =>
          cases u
          cases h4 : loopFields KEYWORDS cfg.event_by_field_filters
              cfg.field_exclusion_filters ev.fields with
          | error e => simp [formatCore, formatCoreT, h1, h2, h3, h4] at hp
          | ok pairs =>
            have hfc : formatCore cfg ev sp =
                .ok { app_name := cfg.app_name
                      message := selectMessageCore ev.fields
                      event_level := ev.level
                      source_file := ev.file.getD "Unknown"
                      source_line := ev.line.getD 0
                      target := ev.target
                      span := spanName sp
                      metadata := pairs ++ spanFields sp } := by
              simp [formatCore, formatCoreT, h1, h2, h3, h4]
            rw [hfc] at hp
            have hp' : _ = p := Except.ok.inj hp
            subst hp'
            exact ⟨pairs, rfl⟩

/-- C2 counterexample: the Slack-layer formatter does not follow the claimed
stage order. On a plain event it selects and filters the message before ever
consulting the target filter (and has no level-filter stage), so its stage
trace cannot be extended to the claimed order, whose first stage is the
target filter. -/
theorem c2_counterexample :
    ¬ ∃ t, (formatSlackT slackCfgX evC2 none).2 ++ t = claimedStageOrder := by
  rintro ⟨t, h⟩
  simp [formatSlackT, slackCfgX, evC2, acceptAllEF, processOpt, selectMessageSlack, lookupStr,
    loopFields, claimedStageOrder] at h

/-- C2 witness for the amended claim: the three parts instantiated at a
concrete configuration, event, span and excluded field. -/
theorem c2_witness :
    (∃ t, (formatCoreT cfgC2w evC2w spC2w).2 ++ t = claimedStageOrder) ∧
    loopFields KEYWORDS none (some [rxUser]) [("user", JValue.str "a")] =
      loopFields KEYWORDS none (some [rxUser]) [] ∧
    (∃ eventPart, pC2w.metadata = eventPart ++ spanFields spC2w) :=
  ⟨(c2_core_stage_order cfgC2w evC2w spC2w).1,
   (c2_core_stage_order cfgC2w evC2w spC2w).2.1 KEYWORDS none (some [rxUser])
     "user" (JValue.str "a") [] rfl,
   (c2_core_stage_order cfgC2w evC2w spC2w).2.2 pC2w rfl⟩
